import Mathlib

/-!
Verification of the smart-auto-scaler dashboard's API client, decision
normalizer, session guard and view-controller contracts.

Numbers flowing through the normalizer (cores, megabytes, confidences,
percentages) are embedded as `Rat`.  JavaScript truthiness on such a
number (`if (x)`, `x || d`, optional chaining followed by a truthiness
test) is embedded by `truthy`, which drops both an absent field and a
present-but-zero value.
-/

/-- The three scaling actions of the backend (`'DECREASE' | 'MAINTAIN' | 'INCREASE'`). -/
inductive ScalingAction
  | DECREASE
  | MAINTAIN
  | INCREASE
deriving DecidableEq

/-- The `confidence` field of a decision: either a plain number or a
`{cpu, memory}` pair (models `confidence?: number | {cpu, memory}`). -/
inductive ConfidenceValue
  | num (value : Rat)
  | pair (cpu : Rat) (memory : Rat)
deriving DecidableEq

/-- A `{cpu_cores, memory_mb}` record (`current_resources`,
`proposed_resources`, `current_usage`). -/
structure ResourceSpec where
  cpu_cores : Rat
  memory_mb : Rat
deriving DecidableEq

/-- The enhanced-format `current_metrics` record. -/
structure CurrentMetrics where
  cpu_limit : Rat
  cpu_usage : Rat
  memory_limit_mb : Rat
  memory_usage_mb : Rat
deriving DecidableEq

/-- One per-resource entry of `resource_changes`. -/
structure ResourceChange where
  action : String
  change_percent : Rat
  current : Rat
  new : Rat
deriving DecidableEq

/-- The `resource_changes` record; the component reads both entries
through optional chaining (`resource_changes?.cpu?.…`), so each is
modelled as optional. -/
structure ResourceChanges where
  cpu : Option ResourceChange
  memory : Option ResourceChange
deriving DecidableEq

/-- The `ScalingDecision` interface of `api.models.ts`: identity fields are
always present, everything else is optional and shape-dependent.
The TS field `namespace` is rendered as `pod_namespace`. -/
structure ScalingDecision where
  pod_namespace : String
  pod_name : String
  timestamp : String
  action : Option ScalingAction
  confidence : Option ConfidenceValue
  current_resources : Option ResourceSpec
  proposed_resources : Option ResourceSpec
  current_usage : Option ResourceSpec
  applied : Option Bool
  reason : Option String
  can_scale : Option Bool
  cpu_action : Option ScalingAction
  memory_action : Option ScalingAction
  current_metrics : Option CurrentMetrics
  resource_changes : Option ResourceChanges
deriving DecidableEq

/-- JS truthiness on an optionally-present number: an absent field and a
present zero both count as falsy. -/
def truthy : Option Rat → Option Rat
  | some v => if v = 0 then none else some v
  | none => none

namespace DecisionsComponent

/-- TS `getOverallAction` (decisions component): an explicit `action` wins;
else with both per-resource actions present, INCREASE if either is
INCREASE, else DECREASE if either is DECREASE, else MAINTAIN; else
MAINTAIN. -/
def getOverallAction (d : ScalingDecision) : ScalingAction :=
  match d.action with
  | some a => a
  | none =>
    match d.cpu_action, d.memory_action with
    | some ca, some ma =>
      if ca = ScalingAction.INCREASE ∨ ma = ScalingAction.INCREASE then ScalingAction.INCREASE
      else if ca = ScalingAction.DECREASE ∨ ma = ScalingAction.DECREASE then ScalingAction.DECREASE
      else ScalingAction.MAINTAIN
    | _, _ => ScalingAction.MAINTAIN

/-- TS `getOverallConfidence`: a plain number is returned as is, a
`{cpu, memory}` pair is averaged, anything else yields 0. -/
def getOverallConfidence (d : ScalingDecision) : Rat :=
  match d.confidence with
  | some (ConfidenceValue.num v) => v
  | some (ConfidenceValue.pair c m) => (c + m) / 2
  | none => 0

/-- TS `getCurrentCpuCores`: `current_resources?.cpu_cores` if truthy, else
`current_metrics?.cpu_usage` if truthy, else 0. -/
def getCurrentCpuCores (d : ScalingDecision) : Rat :=
  match truthy (d.current_resources.map ResourceSpec.cpu_cores) with
  | some v => v
  | none =>
    match truthy (d.current_metrics.map CurrentMetrics.cpu_usage) with
    | some v => v
    | none => 0

/-- TS `getProposedCpuCores`: `proposed_resources?.cpu_cores` if truthy, else
`resource_changes?.cpu?.new` if truthy, else the current value. -/
def getProposedCpuCores (d : ScalingDecision) : Rat :=
  match truthy (d.proposed_resources.map ResourceSpec.cpu_cores) with
  | some v => v
  | none =>
    match truthy ((d.resource_changes.bind ResourceChanges.cpu).map ResourceChange.new) with
    | some v => v
    | none => getCurrentCpuCores d

/-- TS `getCurrentMemoryMb`: `current_resources?.memory_mb` if truthy, else
`current_metrics?.memory_usage_mb` if truthy, else 0. -/
def getCurrentMemoryMb (d : ScalingDecision) : Rat :=
  match truthy (d.current_resources.map ResourceSpec.memory_mb) with
  | some v => v
  | none =>
    match truthy (d.current_metrics.map CurrentMetrics.memory_usage_mb) with
    | some v => v
    | none => 0

/-- TS `getProposedMemoryMb`: `proposed_resources?.memory_mb` if truthy, else
`resource_changes?.memory?.new` if truthy, else the current value. -/
def getProposedMemoryMb (d : ScalingDecision) : Rat :=
  match truthy (d.proposed_resources.map ResourceSpec.memory_mb) with
  | some v => v
  | none =>
    match truthy ((d.resource_changes.bind ResourceChanges.memory).map ResourceChange.new) with
    | some v => v
    | none => getCurrentMemoryMb d

/-- TS `getCpuChangePercent`: `resource_changes?.cpu?.change_percent || 0`. -/
def getCpuChangePercent (d : ScalingDecision) : Rat :=
  (truthy ((d.resource_changes.bind ResourceChanges.cpu).map ResourceChange.change_percent)).getD 0

/-- TS `getMemoryChangePercent`: `resource_changes?.memory?.change_percent || 0`. -/
def getMemoryChangePercent (d : ScalingDecision) : Rat :=
  (truthy ((d.resource_changes.bind ResourceChanges.memory).map ResourceChange.change_percent)).getD 0

/-- TS `hasCpuChanges`: `resource_changes?.cpu` present with
`change_percent !== 0`. -/
def hasCpuChanges (d : ScalingDecision) : Bool :=
  match d.resource_changes.bind ResourceChanges.cpu with
  | some c => c.change_percent ≠ 0
  | none => false

/-- TS `hasMemoryChanges`: `resource_changes?.memory` present with
`change_percent !== 0`. -/
def hasMemoryChanges (d : ScalingDecision) : Bool :=
  match d.resource_changes.bind ResourceChanges.memory with
  | some c => c.change_percent ≠ 0
  | none => false

end DecisionsComponent

/-! ### Backend response records (`api.models.ts`) -/

/-- A pod's owner reference. -/
structure PodOwner where
  kind : String
  name : String
  uid : String
deriving DecidableEq

/-- The `Pod` interface; the TS field `namespace` is rendered as
`pod_namespace`. -/
structure Pod where
  name : String
  pod_namespace : String
  uid : String
  labels : List (String × String)
  owner : Option PodOwner
deriving DecidableEq

/-- TS `Statistics.action_distribution.cpu_actions` / `memory_actions`. -/
structure ActionCounts where
  DECREASE : Rat
  INCREASE : Rat
  MAINTAIN : Rat
deriving DecidableEq

/-- TS `Statistics.action_distribution`. -/
structure ActionDistribution where
  cpu_actions : ActionCounts
  memory_actions : ActionCounts
deriving DecidableEq

/-- TS `Statistics.model_performance`. -/
structure ModelPerformance where
  average_cpu_confidence : Rat
  average_memory_confidence : Rat
  model_type : String
deriving DecidableEq

/-- TS `Statistics.overview`. -/
structure StatisticsOverview where
  applied_scalings : Rat
  scaling_rate : Rat
  total_decisions : Rat
  total_pods_monitored : Rat
deriving DecidableEq

/-- TS `Statistics.resource_utilization`. -/
structure ResourceUtilization where
  average_cpu_usage : Rat
  average_memory_usage_mb : Rat
deriving DecidableEq

/-- TS `Statistics.system_status`. -/
structure SystemStatus where
  cooldown_period_minutes : Rat
  dry_run_mode : Bool
  kubernetes_available : Bool
  scale_factor : Rat
deriving DecidableEq

/-- The `Statistics` aggregate snapshot. -/
structure Statistics where
  action_distribution : ActionDistribution
  model_performance : ModelPerformance
  overview : StatisticsOverview
  resource_utilization : ResourceUtilization
  system_status : SystemStatus
  timestamp : String
deriving DecidableEq

/-- The `Config` record of scaler operating parameters. -/
structure Config where
  model_path : String
  state_dim : Rat
  action_dim : Rat
  history_window : Rat
  min_cpu : Rat
  max_cpu : Rat
  min_memory : Rat
  max_memory : Rat
  scale_factor : Rat
  dry_run : Bool
  in_cluster : Bool
  namespaces : List String
  auto_scale_enabled : Bool
  auto_scale_interval : Rat
  scaling_cooldown : Rat
deriving DecidableEq

/-- The `AutoscaleStatus` record. -/
structure AutoscaleStatus where
  enabled : Bool
  running : Bool
  interval_seconds : Rat
  thread_alive : Bool
deriving DecidableEq

/-- The `HealthStatus` record. -/
structure HealthStatus where
  status : String
  service : String
  timestamp : String
deriving DecidableEq

/-! ### Backend Gateway Client (`api.service.ts`)

Every operation pipes its single HTTP observable through
`catchError(this.handleError)`.  An operation is embedded as a pure
function from the outcome of that one HTTP exchange to an
`Except GatewayError` result; the request it issues is embedded
separately as a `List HttpRequest` (a list, so that the absence of
retries is the statement that the list has exactly one element). -/

/-- A failure observable at the HTTP boundary: a client-side
`ErrorEvent` (network failure), or a server-side response that is either
a non-2xx status or a body the HTTP layer could not parse. -/
inductive HttpFailure
  | networkFailure (message : String)
  | nonSuccessStatus (status : Nat) (message : String)
  | malformedBody (status : Nat) (message : String)
deriving DecidableEq

/-- Outcome of a single HTTP exchange. -/
inductive HttpOutcome (α : Type)
  | success (body : α)
  | failure (f : HttpFailure)

/-- The single uniform error shape the client surfaces: an `Error`
carrying one message string. -/
structure GatewayError where
  message : String
deriving DecidableEq

/-- HTTP method of an issued request. -/
inductive HttpMethod
  | get
  | post
deriving DecidableEq

/-- One request issued by the client. -/
structure HttpRequest where
  method : HttpMethod
  url : String
deriving DecidableEq

namespace ApiService

/-- TS `private apiUrl = "http://localhost:5404"`. -/
def apiUrl : String := "http://localhost:5404"

/-- TS `handleError`: an `ErrorEvent` yields `Error: {message}`; any
server-side error yields `Error Code: {status}\nMessage: {message}`;
either way the result is one `GatewayError`. -/
def handleError : HttpFailure → GatewayError
  | HttpFailure.networkFailure m =>
      GatewayError.mk ("Error: " ++ m)
  | HttpFailure.nonSuccessStatus s m =>
      GatewayError.mk ("Error Code: " ++ toString s ++ "\nMessage: " ++ m)
  | HttpFailure.malformedBody s m =>
      GatewayError.mk ("Error Code: " ++ toString s ++ "\nMessage: " ++ m)

/-- TS `.pipe(catchError(this.handleError))` applied to the outcome of one
HTTP exchange. -/
def pipeCatch {α : Type} : HttpOutcome α → Except GatewayError α
  | HttpOutcome.success b => Except.ok b
  | HttpOutcome.failure f => Except.error (handleError f)

/-- TS `getHealth`: result of `GET /health`. -/
def getHealth (o : HttpOutcome HealthStatus) : Except GatewayError HealthStatus :=
  pipeCatch o

/-- Request issued by `getHealth`. -/
def getHealthRequests : List HttpRequest :=
  [HttpRequest.mk HttpMethod.get (apiUrl ++ "/health")]

/-- TS `getConfig`: result of `GET /config`. -/
def getConfig (o : HttpOutcome Config) : Except GatewayError Config :=
  pipeCatch o

/-- Request issued by `getConfig`. -/
def getConfigRequests : List HttpRequest :=
  [HttpRequest.mk HttpMethod.get (apiUrl ++ "/config")]

/-- TS `updateConfig` response: an untyped ack record with a `success` flag. -/
structure UpdateConfigResponse where
  success : Bool
deriving DecidableEq

/-- TS `updateConfig`: result of `POST /config`. -/
def updateConfig (o : HttpOutcome UpdateConfigResponse) : Except GatewayError UpdateConfigResponse :=
  pipeCatch o

/-- Request issued by `updateConfig`. -/
def updateConfigRequests : List HttpRequest :=
  [HttpRequest.mk HttpMethod.post (apiUrl ++ "/config")]

/-- TS `getPods` response body. -/
structure PodsResponse where
  success : Bool
  count : Nat
  pods : List Pod
deriving DecidableEq

/-- TS `getPods`: result of `GET /pods`. -/
def getPods (o : HttpOutcome PodsResponse) : Except GatewayError PodsResponse :=
  pipeCatch o

/-- Request issued by `getPods`. -/
def getPodsRequests : List HttpRequest :=
  [HttpRequest.mk HttpMethod.get (apiUrl ++ "/pods")]

/-- TS `getPodInfo` response body. -/
structure PodInfoResponse where
  success : Bool
  pod : String
deriving DecidableEq

/-- TS `getPodInfo`: result of `GET /pods/{namespace}/{podName}`. -/
def getPodInfo (o : HttpOutcome PodInfoResponse) : Except GatewayError PodInfoResponse :=
  pipeCatch o

/-- Request issued by `getPodInfo`. -/
def getPodInfoRequests (ns podName : String) : List HttpRequest :=
  [HttpRequest.mk HttpMethod.get (apiUrl ++ "/pods/" ++ ns ++ "/" ++ podName)]

/-- TS `scalePod` response body. -/
structure ScalePodResponse where
  success : Bool
  result : ScalingDecision
deriving DecidableEq

/-- TS `scalePod`: result of `POST /scale/pod/{namespace}/{podName}`. -/
def scalePod (o : HttpOutcome ScalePodResponse) : Except GatewayError ScalePodResponse :=
  pipeCatch o

/-- Request issued by `scalePod`. -/
def scalePodRequests (ns podName : String) : List HttpRequest :=
  [HttpRequest.mk HttpMethod.post (apiUrl ++ "/scale/pod/" ++ ns ++ "/" ++ podName)]

/-- TS `scaleAllPods` response body. -/
structure ScaleAllResponse where
  success : Bool
  processed : Nat
  results : List ScalingDecision
  statistics : Statistics
  timestamp : String
deriving DecidableEq

/-- TS `scaleAllPods`: result of `POST /scale/all`. -/
def scaleAllPods (o : HttpOutcome ScaleAllResponse) : Except GatewayError ScaleAllResponse :=
  pipeCatch o

/-- Request issued by `scaleAllPods`. -/
def scaleAllPodsRequests : List HttpRequest :=
  [HttpRequest.mk HttpMethod.post (apiUrl ++ "/scale/all")]

/-- TS `getDecisions` response body. -/
structure DecisionsResponse where
  success : Bool
  count : Nat
  decisions : List ScalingDecision
deriving DecidableEq

/-- TS `getDecisions`: result of `GET /decisions?limit={n}`. -/
def getDecisions (o : HttpOutcome DecisionsResponse) : Except GatewayError DecisionsResponse :=
  pipeCatch o

/-- Request issued by `getDecisions limit`. -/
def getDecisionsRequests (limit : Nat) : List HttpRequest :=
  [HttpRequest.mk HttpMethod.get (apiUrl ++ "/decisions?limit=" ++ toString limit)]

/-- The declared default for `getDecisions`' `limit` parameter. -/
def defaultDecisionsLimit : Nat := 50

/-- TS `getStatistics` response body. -/
structure StatisticsResponse where
  success : Bool
  statistics : Statistics
deriving DecidableEq

/-- TS `getStatistics`: result of `GET /statistics`. -/
def getStatistics (o : HttpOutcome StatisticsResponse) : Except GatewayError StatisticsResponse :=
  pipeCatch o

/-- Request issued by `getStatistics`. -/
def getStatisticsRequests : List HttpRequest :=
  [HttpRequest.mk HttpMethod.get (apiUrl ++ "/statistics")]

/-- TS `startAutoscale` response body. -/
structure StartAutoscaleResponse where
  success : Bool
  message : String
  interval : Rat
deriving DecidableEq

/-- TS `startAutoscale`: result of `POST /autoscale/start`. -/
def startAutoscale (o : HttpOutcome StartAutoscaleResponse) : Except GatewayError StartAutoscaleResponse :=
  pipeCatch o

/-- Request issued by `startAutoscale`. -/
def startAutoscaleRequests : List HttpRequest :=
  [HttpRequest.mk HttpMethod.post (apiUrl ++ "/autoscale/start")]

/-- TS `stopAutoscale` response body. -/
structure StopAutoscaleResponse where
  success : Bool
  message : String
deriving DecidableEq

/-- TS `stopAutoscale`: result of `POST /autoscale/stop`. -/
def stopAutoscale (o : HttpOutcome StopAutoscaleResponse) : Except GatewayError StopAutoscaleResponse :=
  pipeCatch o

/-- Request issued by `stopAutoscale`. -/
def stopAutoscaleRequests : List HttpRequest :=
  [HttpRequest.mk HttpMethod.post (apiUrl ++ "/autoscale/stop")]

/-- TS `getAutoscaleStatus`: result of `GET /autoscale/status`. -/
def getAutoscaleStatus (o : HttpOutcome AutoscaleStatus) : Except GatewayError AutoscaleStatus :=
  pipeCatch o

/-- Request issued by `getAutoscaleStatus`. -/
def getAutoscaleStatusRequests : List HttpRequest :=
  [HttpRequest.mk HttpMethod.get (apiUrl ++ "/autoscale/status")]

/-- TS `getModelInfo` response: untyped, kept abstract as a string body. -/
def getModelInfo (o : HttpOutcome String) : Except GatewayError String :=
  pipeCatch o

/-- Request issued by `getModelInfo`. -/
def getModelInfoRequests : List HttpRequest :=
  [HttpRequest.mk HttpMethod.get (apiUrl ++ "/model/info")]

end ApiService

/-! ### Session Guard (`auth.service.ts`)

`localStorage` is embedded as the two keys the service touches; the
`BehaviorSubject` is embedded as its current boolean value. -/

/-- The two durable `localStorage` entries the service reads and writes;
`none` models an absent key. -/
structure AuthStorage where
  isAuthenticated : Option String
  username : Option String
deriving DecidableEq

/-- In-memory plus durable session state: the `BehaviorSubject`'s current
value and the backing storage. -/
structure AuthState where
  subject : Bool
  storage : AuthStorage
deriving DecidableEq

namespace AuthService

/-- TS `getStoredAuthState`: `localStorage.getItem('isAuthenticated') === 'true'`. -/
def getStoredAuthState (st : AuthStorage) : Bool :=
  st.isAuthenticated == some ("true")

/-- Construction: the subject starts from the stored auth state. -/
def init (st : AuthStorage) : AuthState :=
  AuthState.mk (getStoredAuthState st) st

/-- TS `login`: valid iff the pair is `admin`/`admin`; the `tap` writes both
storage keys and pushes `true` only on success, and the observable
resolves to the validity flag either way. -/
def login (username password : String) (s : AuthState) : Bool × AuthState :=
  let isValid := username == "admin" && password == "admin"
  if isValid then
    (true, AuthState.mk true (AuthStorage.mk (some ("true")) (some username)))
  else
    (false, s)

/-- TS `logout`: removes both storage keys and pushes `false`. -/
def logout (_s : AuthState) : AuthState :=
  AuthState.mk false (AuthStorage.mk none none)

/-- TS `isAuthenticated()`: the subject's current value. -/
def isAuthenticated (s : AuthState) : Bool :=
  s.subject

/-- The operations that touch session state. -/
inductive AuthOp
  | loginOp (username password : String)
  | logoutOp
deriving DecidableEq

/-- State transition of one operation (a login's resolved flag is
dropped, only the state effect is kept). -/
def step : AuthOp → AuthState → AuthState
  | AuthOp.loginOp u p, s => (login u p s).2
  | AuthOp.logoutOp, s => logout s

end AuthService

/-! ### View Controllers

Each controller is embedded as its component state plus one pure
function per subscription callback in the source: `…Next` for the
success callback, `…Error` for the error callback, and a `load…`
function for the synchronous part that precedes the HTTP call. -/

namespace DecisionsComponent

/-- Fields of `DecisionsComponent`. -/
structure State where
  decisions : List ScalingDecision
  loading : Bool
  error : Option String
  limit : Nat
deriving DecidableEq

/-- Initializers: `decisions = []`, `loading = true`, `error = null`,
`limit = 50`. -/
def init : State :=
  State.mk [] true none 50

/-- TS `loadDecisions`, up to the subscription: sets `loading`, clears
`error`, and calls `getDecisions(this.limit)`; returns the updated state
and the requests that call issues. -/
def loadDecisions (s : State) : State × List HttpRequest :=
  ({ s with loading := true, error := none }, ApiService.getDecisionsRequests s.limit)

/-- The `next` callback: on `success`, store the reversed list; either
way set `loading = false`. -/
def loadDecisionsNext (s : State) (r : ApiService.DecisionsResponse) : State :=
  if r.success then
    { s with decisions := r.decisions.reverse, loading := false }
  else
    { s with loading := false }

/-- The `error` callback. -/
def loadDecisionsError (s : State) : State :=
  { s with error := some ("Failed to load decisions"), loading := false }

end DecisionsComponent

namespace PodsComponent

/-- Fields of `PodsComponent`. -/
structure State where
  pods : List Pod
  loading : Bool
  error : Option String
  scalingPod : Option String
deriving DecidableEq

/-- Initializers: `pods = []`, `loading = true`, `error = null`,
`scalingPod = null`. -/
def init : State :=
  State.mk [] true none none

/-- TS `loadPods`, up to the subscription. -/
def loadPods (s : State) : State × List HttpRequest :=
  ({ s with loading := true, error := none }, ApiService.getPodsRequests)

/-- The `next` callback: on `success`, store the pods; either way set
`loading = false`. -/
def loadPodsNext (s : State) (r : ApiService.PodsResponse) : State :=
  if r.success then
    { s with pods := r.pods, loading := false }
  else
    { s with loading := false }

/-- The `error` callback. -/
def loadPodsError (s : State) : State :=
  { s with error := some ("Failed to load pods"), loading := false }

end PodsComponent

namespace DashboardComponent

/-- Fields of `DashboardComponent` (the refresh subscription handle is
not part of the data state). -/
structure State where
  statistics : Option Statistics
  autoscaleStatus : Option AutoscaleStatus
  config : Option Config
  loading : Bool
  error : Option String
deriving DecidableEq

/-- Initializers: all data `null`, `loading = true`, `error = null`. -/
def init : State :=
  State.mk none none none true none

/-- TS `loadDashboard`, up to the three subscriptions: sets `loading`,
clears `error`, and issues the statistics, autoscale-status and config
calls. -/
def loadDashboard (s : State) : State × List HttpRequest :=
  ({ s with loading := true, error := none },
    ApiService.getStatisticsRequests ++ ApiService.getAutoscaleStatusRequests
      ++ ApiService.getConfigRequests)

/-- TS `next` of the statistics call inside `loadDashboard`: on `success`,
replace the statistics; `loading` is not touched. -/
def loadStatisticsNext (s : State) (r : ApiService.StatisticsResponse) : State :=
  if r.success then { s with statistics := some r.statistics } else s

/-- TS `error` of the statistics call inside `loadDashboard`: stores an
error string; `loading` is not touched. -/
def loadStatisticsError (s : State) : State :=
  { s with error := some ("Failed to load statistics") }

/-- TS `next` of the autoscale-status call inside `loadDashboard`. -/
def loadAutoscaleStatusNext (s : State) (st : AutoscaleStatus) : State :=
  { s with autoscaleStatus := some st }

/-- TS `error` of the autoscale-status call inside `loadDashboard`: only
`console.error`, the state is untouched. -/
def loadAutoscaleStatusError (s : State) : State :=
  s

/-- TS `next` of the config call inside `loadDashboard`. -/
def loadConfigNext (s : State) (c : Config) : State :=
  { s with config := some c, loading := false }

/-- TS `error` of the config call inside `loadDashboard`. -/
def loadConfigError (s : State) : State :=
  { s with error := some ("Failed to load configuration"), loading := false }

/-- TS `next` of the recurring 10-second statistics refresh: same body as
the load-time statistics `next`. -/
def refreshStatisticsNext (s : State) (r : ApiService.StatisticsResponse) : State :=
  if r.success then { s with statistics := some r.statistics } else s

/-- TS `error` of the recurring refresh: only `console.error`. -/
def refreshStatisticsError (s : State) : State :=
  s

end DashboardComponent

namespace ConfigComponent

/-- Fields of `ConfigComponent`. -/
structure State where
  config : Option Config
  loading : Bool
  error : Option String
  success : Option String
  saving : Bool
deriving DecidableEq

/-- Initializers: `config = null`, `loading = true`, `error = null`,
`success = null`, `saving = false`. -/
def init : State :=
  State.mk none true none none false

/-- TS `loadConfig`, up to the subscription. -/
def loadConfig (s : State) : State × List HttpRequest :=
  ({ s with loading := true, error := none }, ApiService.getConfigRequests)

/-- The `next` callback of `loadConfig`. -/
def loadConfigNext (s : State) (c : Config) : State :=
  { s with config := some c, loading := false }

/-- The `error` callback of `loadConfig`. -/
def loadConfigError (s : State) : State :=
  { s with error := some ("Failed to load configuration"), loading := false }

end ConfigComponent

/-! ### Concrete sample values -/

/-- A decision carrying only the always-present identity fields. -/
def emptyDecision : ScalingDecision :=
  ScalingDecision.mk ("default") ("pod-1") ("2024-01-01T00:00:00Z")
    none none none none none none none none none none none none

/-- Enhanced-shape decision whose two per-resource actions disagree. -/
def exampleMixedActions : ScalingDecision :=
  { emptyDecision with
      cpu_action := some ScalingAction.DECREASE,
      memory_action := some ScalingAction.INCREASE }

/-- Decision with a `{cpu, memory}` confidence pair. -/
def examplePairConfidence : ScalingDecision :=
  { emptyDecision with
      confidence := some (ConfidenceValue.pair (4 / 5) (3 / 5)) }

/-- Legacy-shape decision with explicit current resources. -/
def exampleLegacyResources : ScalingDecision :=
  { emptyDecision with
      current_resources := some (ResourceSpec.mk 2 1024) }

/-- Decision whose cpu entry of `resource_changes` is present with a zero
`change_percent`. -/
def exampleZeroChange : ScalingDecision :=
  { emptyDecision with
      resource_changes :=
        some (ResourceChanges.mk (some (ResourceChange.mk ("MAINTAIN") 0 2 2)) none) }

/-- A statistics snapshot with neutral contents. -/
def exampleStatistics : Statistics :=
  Statistics.mk
    (ActionDistribution.mk (ActionCounts.mk 0 0 0) (ActionCounts.mk 0 0 0))
    (ModelPerformance.mk 0 0 ("DQN"))
    (StatisticsOverview.mk 0 0 0 0)
    (ResourceUtilization.mk 0 0)
    (SystemStatus.mk 0 false false 0)
    "2024-01-01T00:00:00Z"

/-! ### Claim theorems -/

/-- C1: the normalized overall action equals an explicitly present
`action`; otherwise, with both per-resource actions present, it is
INCREASE when either is INCREASE (INCREASE takes priority), else
DECREASE when either is DECREASE, else MAINTAIN. -/
theorem overallAction_normalization (d : ScalingDecision) :
    (∀ a, d.action = some a → DecisionsComponent.getOverallAction d = a)
    ∧ (∀ ca ma, d.action = none → d.cpu_action = some ca → d.memory_action = some ma →
        ((ca = ScalingAction.INCREASE ∨ ma = ScalingAction.INCREASE →
            DecisionsComponent.getOverallAction d = ScalingAction.INCREASE)
         ∧ (ca ≠ ScalingAction.INCREASE → ma ≠ ScalingAction.INCREASE →
            ca = ScalingAction.DECREASE ∨ ma = ScalingAction.DECREASE →
            DecisionsComponent.getOverallAction d = ScalingAction.DECREASE)
         ∧ (ca ≠ ScalingAction.INCREASE → ma ≠ ScalingAction.INCREASE →
            ca ≠ ScalingAction.DECREASE → ma ≠ ScalingAction.DECREASE →
            DecisionsComponent.getOverallAction d = ScalingAction.MAINTAIN))) := by
  constructor
  · intro a ha
    simp [DecisionsComponent.getOverallAction, ha]
  · intro ca ma h0 hc hm
    refine ⟨?_, ?_, ?_⟩
    · intro hi
      simp [DecisionsComponent.getOverallAction, h0, hc, hm, hi]
    · intro hci hmi hdec
      simp [DecisionsComponent.getOverallAction, h0, hc, hm, hci, hmi, hdec]
    · intro hci hmi hcd hmd
      simp [DecisionsComponent.getOverallAction, h0, hc, hm, hci, hmi, hcd, hmd]

/-- Witness for C1 at a decision whose cpu action is DECREASE and whose
memory action is INCREASE: INCREASE wins. -/
theorem overallAction_normalization_witness :
    DecisionsComponent.getOverallAction exampleMixedActions = ScalingAction.INCREASE :=
  ((overallAction_normalization exampleMixedActions).2
      ScalingAction.DECREASE ScalingAction.INCREASE rfl rfl rfl).1 (Or.inr rfl)

/-- C2: the normalized overall confidence equals a plain-number
`confidence` exactly, is the arithmetic mean of a `{cpu, memory}` pair,
and is 0 otherwise. -/
theorem overallConfidence_normalization (d : ScalingDecision) :
    (∀ v, d.confidence = some (ConfidenceValue.num v) →
        DecisionsComponent.getOverallConfidence d = v)
    ∧ (∀ a b, d.confidence = some (ConfidenceValue.pair a b) →
        DecisionsComponent.getOverallConfidence d = (a + b) / 2)
    ∧ (d.confidence = none → DecisionsComponent.getOverallConfidence d = 0) := by
  refine ⟨?_, ?_, ?_⟩
  · intro v hv
    simp [DecisionsComponent.getOverallConfidence, hv]
  · intro a b hab
    simp [DecisionsComponent.getOverallConfidence, hab]
  · intro h
    simp [DecisionsComponent.getOverallConfidence, h]

/-- Witness for C2 at `confidence = {cpu: 4/5, memory: 3/5}`. -/
theorem overallConfidence_normalization_witness :
    DecisionsComponent.getOverallConfidence examplePairConfidence = (4 / 5 + 3 / 5) / 2 :=
  (overallConfidence_normalization examplePairConfidence).2.1 (4 / 5) (3 / 5) rfl

/-- C3: current cpu cores prefer `current_resources.cpu_cores` and fall
back to `current_metrics.cpu_usage`; proposed cpu cores prefer
`proposed_resources.cpu_cores`, fall back to `resource_changes.cpu.new`,
and default to the normalized current value; the same chain holds for
memory with the `memory_mb` / `memory_usage_mb` fields. -/
theorem resourceFallback_chain (d : ScalingDecision) :
    (∀ r, d.current_resources = some r → r.cpu_cores ≠ 0 →
        DecisionsComponent.getCurrentCpuCores d = r.cpu_cores)
    ∧ (∀ m, truthy (d.current_resources.map ResourceSpec.cpu_cores) = none →
        d.current_metrics = some m → m.cpu_usage ≠ 0 →
        DecisionsComponent.getCurrentCpuCores d = m.cpu_usage)
    ∧ (∀ r, d.proposed_resources = some r → r.cpu_cores ≠ 0 →
        DecisionsComponent.getProposedCpuCores d = r.cpu_cores)
    ∧ (∀ c, truthy (d.proposed_resources.map ResourceSpec.cpu_cores) = none →
        d.resource_changes.bind ResourceChanges.cpu = some c → c.new ≠ 0 →
        DecisionsComponent.getProposedCpuCores d = c.new)
    ∧ (truthy (d.proposed_resources.map ResourceSpec.cpu_cores) = none →
        truthy ((d.resource_changes.bind ResourceChanges.cpu).map ResourceChange.new) = none →
        DecisionsComponent.getProposedCpuCores d = DecisionsComponent.getCurrentCpuCores d)
    ∧ (∀ r, d.current_resources = some r → r.memory_mb ≠ 0 →
        DecisionsComponent.getCurrentMemoryMb d = r.memory_mb)
    ∧ (∀ m, truthy (d.current_resources.map ResourceSpec.memory_mb) = none →
        d.current_metrics = some m → m.memory_usage_mb ≠ 0 →
        DecisionsComponent.getCurrentMemoryMb d = m.memory_usage_mb)
    ∧ (∀ r, d.proposed_resources = some r → r.memory_mb ≠ 0 →
        DecisionsComponent.getProposedMemoryMb d = r.memory_mb)
    ∧ (∀ c, truthy (d.proposed_resources.map ResourceSpec.memory_mb) = none →
        d.resource_changes.bind ResourceChanges.memory = some c → c.new ≠ 0 →
        DecisionsComponent.getProposedMemoryMb d = c.new)
    ∧ (truthy (d.proposed_resources.map ResourceSpec.memory_mb) = none →
        truthy ((d.resource_changes.bind ResourceChanges.memory).map ResourceChange.new) = none →
        DecisionsComponent.getProposedMemoryMb d = DecisionsComponent.getCurrentMemoryMb d) := by
  refine ⟨?_, ?_, ?_, ?_, ?_, ?_, ?_, ?_, ?_, ?_⟩
  · intro r hr hne
    simp [DecisionsComponent.getCurrentCpuCores, truthy, hr, hne]
  · intro m h1 hm hne
    unfold DecisionsComponent.getCurrentCpuCores
    rw [h1, hm]
    simp [truthy, hne]
  · intro r hr hne
    simp [DecisionsComponent.getProposedCpuCores, truthy, hr, hne]
  · intro c h1 hc hne
    unfold DecisionsComponent.getProposedCpuCores
    rw [h1, hc]
    simp [truthy, hne]
  · intro h1 h2
    unfold DecisionsComponent.getProposedCpuCores
    rw [h1, h2]
  · intro r hr hne
    simp [DecisionsComponent.getCurrentMemoryMb, truthy, hr, hne]
  · intro m h1 hm hne
    unfold DecisionsComponent.getCurrentMemoryMb
    rw [h1, hm]
    simp [truthy, hne]
  · intro r hr hne
    simp [DecisionsComponent.getProposedMemoryMb, truthy, hr, hne]
  · intro c h1 hc hne
    unfold DecisionsComponent.getProposedMemoryMb
    rw [h1, hc]
    simp [truthy, hne]
  · intro h1 h2
    unfold DecisionsComponent.getProposedMemoryMb
    rw [h1, h2]

/-- Witness for C3 at a legacy decision with `current_resources` set and
no proposed data: current cpu is read from `current_resources` and
proposed cpu defaults to it. -/
theorem resourceFallback_chain_witness :
    DecisionsComponent.getCurrentCpuCores exampleLegacyResources = 2
    ∧ DecisionsComponent.getProposedCpuCores exampleLegacyResources
        = DecisionsComponent.getCurrentCpuCores exampleLegacyResources :=
  ⟨(resourceFallback_chain exampleLegacyResources).1
      (ResourceSpec.mk 2 1024) rfl (by norm_num),
    (resourceFallback_chain exampleLegacyResources).2.2.2.2.1 rfl rfl⟩

/-- C4: the per-resource change percent is
`resource_changes.<resource>.change_percent` with default 0, and the
"has changes" predicate holds exactly when that entry is present with a
non-zero percent; in particular a present cpu entry with percent 0 gives
`hasCpuChanges = false`. -/
theorem changePercent_semantics (d : ScalingDecision) :
    (∀ c, d.resource_changes.bind ResourceChanges.cpu = some c →
        DecisionsComponent.getCpuChangePercent d = c.change_percent)
    ∧ (d.resource_changes.bind ResourceChanges.cpu = none →
        DecisionsComponent.getCpuChangePercent d = 0)
    ∧ (DecisionsComponent.hasCpuChanges d = true ↔
        ∃ c, d.resource_changes.bind ResourceChanges.cpu = some c ∧ c.change_percent ≠ 0)
    ∧ (∀ c, d.resource_changes.bind ResourceChanges.cpu = some c → c.change_percent = 0 →
        DecisionsComponent.hasCpuChanges d = false)
    ∧ (∀ c, d.resource_changes.bind ResourceChanges.memory = some c →
        DecisionsComponent.getMemoryChangePercent d = c.change_percent)
    ∧ (d.resource_changes.bind ResourceChanges.memory = none →
        DecisionsComponent.getMemoryChangePercent d = 0)
    ∧ (DecisionsComponent.hasMemoryChanges d = true ↔
        ∃ c, d.resource_changes.bind ResourceChanges.memory = some c ∧ c.change_percent ≠ 0)
    ∧ (∀ c, d.resource_changes.bind ResourceChanges.memory = some c → c.change_percent = 0 →
        DecisionsComponent.hasMemoryChanges d = false) := by
  refine ⟨?_, ?_, ?_, ?_, ?_, ?_, ?_, ?_⟩
  · intro c hc
    by_cases hz : c.change_percent = 0
    · simp [DecisionsComponent.getCpuChangePercent, truthy, hc, hz]
    · simp [DecisionsComponent.getCpuChangePercent, truthy, hc, hz]
  · intro hc
    simp [DecisionsComponent.getCpuChangePercent, truthy, hc]
  · cases hc : d.resource_changes.bind ResourceChanges.cpu with
    | none => simp [DecisionsComponent.hasCpuChanges, hc]
    | some c => simp [DecisionsComponent.hasCpuChanges, hc]
  · intro c hc hz
    simp [DecisionsComponent.hasCpuChanges, hc, hz]
  · intro c hc
    by_cases hz : c.change_percent = 0
    · simp [DecisionsComponent.getMemoryChangePercent, truthy, hc, hz]
    · simp [DecisionsComponent.getMemoryChangePercent, truthy, hc, hz]
  · intro hc
    simp [DecisionsComponent.getMemoryChangePercent, truthy, hc]
  · cases hc : d.resource_changes.bind ResourceChanges.memory with
    | none => simp [DecisionsComponent.hasMemoryChanges, hc]
    | some c => simp [DecisionsComponent.hasMemoryChanges, hc]
  · intro c hc hz
    simp [DecisionsComponent.hasMemoryChanges, hc, hz]

/-- Witness for C4 at a decision whose cpu change entry is present with
`change_percent = 0`. -/
theorem changePercent_semantics_witness :
    DecisionsComponent.hasCpuChanges exampleZeroChange = false :=
  (changePercent_semantics exampleZeroChange).2.2.2.1
    (ResourceChange.mk ("MAINTAIN") 0 2 2) rfl rfl

/-- The message produced by `handleError` is never empty. -/
lemma handleError_message_pos (f : HttpFailure) :
    0 < (ApiService.handleError f).message.length := by
  have h1 : 0 < "Error: ".length := by decide
  have h2 : 0 < "Error Code: ".length := by decide
  cases f with
  | networkFailure m =>
    simpa [ApiService.handleError, String.length_append] using
      Nat.lt_of_lt_of_le h1 (Nat.le_add_right _ _)
  | nonSuccessStatus s m =>
    simp only [ApiService.handleError, String.length_append]
    omega
  | malformedBody s m =>
    simp only [ApiService.handleError, String.length_append]
    omega

/-- C5: every Gateway Client operation maps every HTTP failure through
the one `handleError` into the single `GatewayError` shape carrying a
non-empty human-readable message, and each operation issues exactly one
request (no retries). -/
theorem gatewayError_uniform (f : HttpFailure) (ns podName : String) (limit : Nat) :
    ApiService.getHealth (HttpOutcome.failure f) = Except.error (ApiService.handleError f)
    ∧ ApiService.getConfig (HttpOutcome.failure f) = Except.error (ApiService.handleError f)
    ∧ ApiService.updateConfig (HttpOutcome.failure f) = Except.error (ApiService.handleError f)
    ∧ ApiService.getPods (HttpOutcome.failure f) = Except.error (ApiService.handleError f)
    ∧ ApiService.getPodInfo (HttpOutcome.failure f) = Except.error (ApiService.handleError f)
    ∧ ApiService.scalePod (HttpOutcome.failure f) = Except.error (ApiService.handleError f)
    ∧ ApiService.scaleAllPods (HttpOutcome.failure f) = Except.error (ApiService.handleError f)
    ∧ ApiService.getDecisions (HttpOutcome.failure f) = Except.error (ApiService.handleError f)
    ∧ ApiService.getStatistics (HttpOutcome.failure f) = Except.error (ApiService.handleError f)
    ∧ ApiService.startAutoscale (HttpOutcome.failure f) = Except.error (ApiService.handleError f)
    ∧ ApiService.stopAutoscale (HttpOutcome.failure f) = Except.error (ApiService.handleError f)
    ∧ ApiService.getAutoscaleStatus (HttpOutcome.failure f) = Except.error (ApiService.handleError f)
    ∧ ApiService.getModelInfo (HttpOutcome.failure f) = Except.error (ApiService.handleError f)
    ∧ 0 < (ApiService.handleError f).message.length
    ∧ ApiService.getHealthRequests.length = 1
    ∧ ApiService.getConfigRequests.length = 1
    ∧ ApiService.updateConfigRequests.length = 1
    ∧ ApiService.getPodsRequests.length = 1
    ∧ (ApiService.getPodInfoRequests ns podName).length = 1
    ∧ (ApiService.scalePodRequests ns podName).length = 1
    ∧ ApiService.scaleAllPodsRequests.length = 1
    ∧ (ApiService.getDecisionsRequests limit).length = 1
    ∧ ApiService.getStatisticsRequests.length = 1
    ∧ ApiService.startAutoscaleRequests.length = 1
    ∧ ApiService.stopAutoscaleRequests.length = 1
    ∧ ApiService.getAutoscaleStatusRequests.length = 1
    ∧ ApiService.getModelInfoRequests.length = 1 :=
  ⟨rfl, rfl, rfl, rfl, rfl, rfl, rfl, rfl, rfl, rfl, rfl, rfl, rfl,
    handleError_message_pos f,
    rfl, rfl, rfl, rfl, rfl, rfl, rfl, rfl, rfl, rfl, rfl, rfl, rfl⟩

/-- C6: login resolves successful exactly for the pair
`admin` / `admin`; success persists the flag and username, any other
pair leaves the whole session state unchanged. -/
theorem login_credentials (u p : String) (s : AuthState) :
    ((AuthService.login u p s).1 = true ↔ u = "admin" ∧ p = "admin")
    ∧ (u = "admin" → p = "admin" →
        (AuthService.login u p s).2 =
          AuthState.mk true (AuthStorage.mk (some ("true")) (some u)))
    ∧ (¬(u = "admin" ∧ p = "admin") → (AuthService.login u p s).2 = s) := by
  by_cases hu : u = "admin"
  · by_cases hp : p = "admin"
    · subst hu
      subst hp
      simp [AuthService.login]
    · simp [AuthService.login, hu, hp]
  · simp [AuthService.login, hu]

/-- Witness for C6: the valid pair succeeds and persists, starting from
a fresh unauthenticated session. -/
theorem login_credentials_witness :
    (AuthService.login ("admin") ("admin")
        (AuthService.init (AuthStorage.mk none none))).2 =
      AuthState.mk true (AuthStorage.mk (some ("true")) (some ("admin"))) :=
  (login_credentials ("admin") ("admin")
      (AuthService.init (AuthStorage.mk none none))).2.1 rfl rfl

/-- The dashboard state right after `loadDashboard` has begun on a fresh
component: loading, with no error stored. -/
def dashboardLoading : DashboardComponent.State :=
  (DashboardComponent.loadDashboard DashboardComponent.init).1

/-- C7 counterexample: when the dashboard's autoscale-status load call
fails, the controller stores no error string and leaves
`loading = true`; and when its statistics load call fails, the
controller also leaves `loading = true`.  Both contradict the claim that
every failed load-time call stores an error string and sets
`loading = false`. -/
theorem viewError_counterexample :
    (DashboardComponent.loadAutoscaleStatusError dashboardLoading).error = none
    ∧ (DashboardComponent.loadAutoscaleStatusError dashboardLoading).loading = true
    ∧ (DashboardComponent.loadStatisticsError dashboardLoading).loading = true :=
  ⟨rfl, rfl, rfl⟩

/-- C7 amended: the pods, decisions and config views and the dashboard's
config load store an error string, set `loading = false` and leave data
untouched on failure; the dashboard's statistics load failure stores an
error string but leaves `loading` untouched, and its autoscale-status
load failure changes nothing; all failure callbacks leave previously
stored data untouched. -/
theorem viewError_handling_amended (sp : PodsComponent.State)
    (sd : DecisionsComponent.State) (sc : ConfigComponent.State)
    (sb : DashboardComponent.State) :
    ((PodsComponent.loadPodsError sp).error = some ("Failed to load pods")
      ∧ (PodsComponent.loadPodsError sp).loading = false
      ∧ (PodsComponent.loadPodsError sp).pods = sp.pods)
    ∧ ((DecisionsComponent.loadDecisionsError sd).error = some ("Failed to load decisions")
      ∧ (DecisionsComponent.loadDecisionsError sd).loading = false
      ∧ (DecisionsComponent.loadDecisionsError sd).decisions = sd.decisions)
    ∧ ((ConfigComponent.loadConfigError sc).error = some ("Failed to load configuration")
      ∧ (ConfigComponent.loadConfigError sc).loading = false
      ∧ (ConfigComponent.loadConfigError sc).config = sc.config)
    ∧ ((DashboardComponent.loadConfigError sb).error = some ("Failed to load configuration")
      ∧ (DashboardComponent.loadConfigError sb).loading = false
      ∧ (DashboardComponent.loadConfigError sb).statistics = sb.statistics
      ∧ (DashboardComponent.loadConfigError sb).autoscaleStatus = sb.autoscaleStatus
      ∧ (DashboardComponent.loadConfigError sb).config = sb.config)
    ∧ ((DashboardComponent.loadStatisticsError sb).error = some ("Failed to load statistics")
      ∧ (DashboardComponent.loadStatisticsError sb).loading = sb.loading
      ∧ (DashboardComponent.loadStatisticsError sb).statistics = sb.statistics
      ∧ (DashboardComponent.loadStatisticsError sb).autoscaleStatus = sb.autoscaleStatus
      ∧ (DashboardComponent.loadStatisticsError sb).config = sb.config)
    ∧ DashboardComponent.loadAutoscaleStatusError sb = sb :=
  ⟨⟨rfl, rfl, rfl⟩, ⟨rfl, rfl, rfl⟩, ⟨rfl, rfl, rfl⟩,
    ⟨rfl, rfl, rfl, rfl, rfl⟩, ⟨rfl, rfl, rfl, rfl, rfl⟩, rfl⟩

/-- C8: the decisions view's list call is issued with the currently
selected limit, that limit starts at 50 (as does the client-side default
of `getDecisions`), and a successful response is stored in reverse of
the returned order. -/
theorem decisions_reverse_and_limit (s : DecisionsComponent.State)
    (r : ApiService.DecisionsResponse) :
    DecisionsComponent.init.limit = 50
    ∧ ApiService.defaultDecisionsLimit = 50
    ∧ (DecisionsComponent.loadDecisions s).2 = ApiService.getDecisionsRequests s.limit
    ∧ ApiService.getDecisionsRequests s.limit =
        [HttpRequest.mk HttpMethod.get
          (ApiService.apiUrl ++ "/decisions?limit=" ++ toString s.limit)]
    ∧ (r.success = true →
        (DecisionsComponent.loadDecisionsNext (DecisionsComponent.loadDecisions s).1 r).decisions
          = r.decisions.reverse) := by
  refine ⟨rfl, rfl, rfl, rfl, ?_⟩
  intro h
  simp [DecisionsComponent.loadDecisionsNext, DecisionsComponent.loadDecisions, h]

/-- Witness for C8 at a fresh component and a successful two-element
response. -/
theorem decisions_reverse_and_limit_witness :
    (DecisionsComponent.loadDecisionsNext
        (DecisionsComponent.loadDecisions DecisionsComponent.init).1
        (ApiService.DecisionsResponse.mk true 2 [exampleMixedActions, examplePairConfidence])).decisions
      = ([exampleMixedActions, examplePairConfidence]).reverse :=
  (decisions_reverse_and_limit DecisionsComponent.init
      (ApiService.DecisionsResponse.mk true 2 [exampleMixedActions, examplePairConfidence])).2.2.2.2
    rfl

/-- C9: the session flag turns true only through a successful
`admin`/`admin` login and false only through logout; an unsuccessful
login leaves the whole session state — subject and durable storage —
unchanged. -/
theorem session_transition_invariants (op : AuthService.AuthOp)
    (s : AuthState) (u p : String) :
    ((AuthService.step op s).subject = true →
        s.subject = true ∨ op = AuthService.AuthOp.loginOp ("admin") ("admin"))
    ∧ ((AuthService.step op s).subject = false →
        s.subject = false ∨ op = AuthService.AuthOp.logoutOp)
    ∧ (¬(u = "admin" ∧ p = "admin") →
        AuthService.step (AuthService.AuthOp.loginOp u p) s = s) := by
  refine ⟨?_, ?_, ?_⟩
  · cases op with
    | loginOp u' p' =>
      by_cases hu : u' = "admin"
      · by_cases hp : p' = "admin"
        · intro _
          right
          rw [hu, hp]
        · intro h
          left
          simpa [AuthService.step, AuthService.login, hu, hp] using h
      · intro h
        left
        simpa [AuthService.step, AuthService.login, hu] using h
    | logoutOp =>
      intro h
      simp [AuthService.step, AuthService.logout] at h
  · cases op with
    | loginOp u' p' =>
      by_cases hu : u' = "admin"
      · by_cases hp : p' = "admin"
        · intro h
          simp [AuthService.step, AuthService.login, hu, hp] at h
        · intro h
          left
          simpa [AuthService.step, AuthService.login, hu, hp] using h
      · intro h
        left
        simpa [AuthService.step, AuthService.login, hu] using h
    | logoutOp =>
      intro _
      right
      rfl
  · intro h
    have hb : (u == "admin" && p == "admin") = false := by
      rcases Bool.eq_false_or_eq_true (u == "admin" && p == "admin") with ht | hf
      · exact absurd ⟨by simpa using (Bool.and_eq_true _ _ |>.mp ht).1,
          by simpa using (Bool.and_eq_true _ _ |>.mp ht).2⟩ h
      · exact hf
    simp [AuthService.step, AuthService.login, hb]

/-- Witness for C9: a failed login attempt on an authenticated session
leaves it authenticated, in memory and in storage. -/
theorem session_transition_invariants_witness :
    AuthService.step (AuthService.AuthOp.loginOp ("guest") ("guest"))
        (AuthState.mk true (AuthStorage.mk (some ("true")) (some ("admin")))) =
      AuthState.mk true (AuthStorage.mk (some ("true")) (some ("admin"))) :=
  (session_transition_invariants (AuthService.AuthOp.loginOp ("guest") ("guest"))
      (AuthState.mk true (AuthStorage.mk (some ("true")) (some ("admin"))))
      ("guest") ("guest")).2.2 (by simp)

/-- C10 counterexample: the dashboard's statistics handler, given an
HTTP success whose body has `success = false` during the initial load,
leaves `loading = true`, contradicting the claim that every view
controller sets `loading = false` in that situation. -/
theorem successFalse_counterexample :
    (DashboardComponent.loadStatisticsNext dashboardLoading
        (ApiService.StatisticsResponse.mk false exampleStatistics)).loading = true :=
  rfl

/-- C10 amended: on an HTTP-success response whose `success` flag is
false, the decisions and pods views keep their data, set
`loading = false` and store no error string; the dashboard's statistics
handler keeps its whole state unchanged (data kept, no error, but
`loading` also untouched). In all three the failure is silently
ignored. -/
theorem successFalse_amended (sd : DecisionsComponent.State)
    (sp : PodsComponent.State) (sb : DashboardComponent.State)
    (rd : ApiService.DecisionsResponse) (rp : ApiService.PodsResponse)
    (rs : ApiService.StatisticsResponse) :
    (rd.success = false →
        (DecisionsComponent.loadDecisionsNext (DecisionsComponent.loadDecisions sd).1 rd).decisions
            = sd.decisions
        ∧ (DecisionsComponent.loadDecisionsNext (DecisionsComponent.loadDecisions sd).1 rd).loading
            = false
        ∧ (DecisionsComponent.loadDecisionsNext (DecisionsComponent.loadDecisions sd).1 rd).error
            = none)
    ∧ (rp.success = false →
        (PodsComponent.loadPodsNext (PodsComponent.loadPods sp).1 rp).pods = sp.pods
        ∧ (PodsComponent.loadPodsNext (PodsComponent.loadPods sp).1 rp).loading = false
        ∧ (PodsComponent.loadPodsNext (PodsComponent.loadPods sp).1 rp).error = none)
    ∧ (rs.success = false →
        DashboardComponent.loadStatisticsNext (DashboardComponent.loadDashboard sb).1 rs
          = (DashboardComponent.loadDashboard sb).1) := by
  refine ⟨?_, ?_, ?_⟩
  · intro h
    refine ⟨?_, ?_, ?_⟩ <;>
      simp [DecisionsComponent.loadDecisionsNext, DecisionsComponent.loadDecisions, h]
  · intro h
    refine ⟨?_, ?_, ?_⟩ <;>
      simp [PodsComponent.loadPodsNext, PodsComponent.loadPods, h]
  · intro h
    simp [DashboardComponent.loadStatisticsNext, h]

/-- Witness for C10 (amended) at a fresh pods component and a
`success = false` response. -/
theorem successFalse_amended_witness :
    (PodsComponent.loadPodsNext (PodsComponent.loadPods PodsComponent.init).1
        (ApiService.PodsResponse.mk false 0 [])).pods = PodsComponent.init.pods
    ∧ (PodsComponent.loadPodsNext (PodsComponent.loadPods PodsComponent.init).1
        (ApiService.PodsResponse.mk false 0 [])).loading = false
    ∧ (PodsComponent.loadPodsNext (PodsComponent.loadPods PodsComponent.init).1
        (ApiService.PodsResponse.mk false 0 [])).error = none :=
  (successFalse_amended DecisionsComponent.init PodsComponent.init
      DashboardComponent.init
      (ApiService.DecisionsResponse.mk false 0 [])
      (ApiService.PodsResponse.mk false 0 [])
      (ApiService.StatisticsResponse.mk false exampleStatistics)).2.1 rfl

